import Mathlib

/-!
Verification of the Resmî Gazete scraper (`function_app.py`).

The Python module is shallowly embedded: strings are `List Char`
(Python `len`/slicing count code points, as `List.length`/`List.take` do),
dicts with a fixed key set become structures with `Option` fields for the
optional keys, and the external collaborators (HTTP fetches, URL resolution,
blob storage, the clock) become explicit parameters, so every function of the
module is a pure Lean function of its inputs plus those collaborators.
-/

namespace ResmiGazete

abbrev Chars := List Char

/-- Model of the character class Python's `\s` regex and `str.strip()` agree
on for the characters that occur in this data: space, tab, newline, carriage
return, vertical tab and form feed. -/
def isSpace (c : Char) : Bool :=
  c = ' ' || c = '\t' || c = '\n' || c = '\r' || c = '\x0b' || c = '\x0c'

/-- Model of `re.sub(r"\s+", " ", s)`: every maximal run of whitespace
characters is replaced by a single space.  A run is consumed pairwise; the
last character of a run emits the single `' '`. -/
def collapseWS : Chars → Chars
  | [] => []
  | [c] => if isSpace c then [' '] else [c]
  | a :: b :: t =>
    if isSpace a && isSpace b then collapseWS (b :: t)
    else (if isSpace a then ' ' else a) :: collapseWS (b :: t)

/-- Model of Python `str.strip()`: drop whitespace from both ends. -/
def pyStrip (l : Chars) : Chars := (l.dropWhile isSpace).rdropWhile isSpace

/-- `_temizle` (source line 42): `re.sub(r"\s+", " ", metin or "").strip()`. -/
def _temizle (s : Chars) : Chars := pyStrip (collapseWS s)

/-- Python's `needle in hay` substring test. -/
def isSub (needle : Chars) : Chars → Bool
  | [] => needle.isEmpty
  | c :: t => needle.isPrefixOf (c :: t) || isSub needle t

/-- Model of `str.lower` for one character, covering ASCII letters and the
Turkish uppercase letters occurring in the page data.  `İ` lowercases to
`i` followed by the combining dot above, as in CPython. -/
def charLower (c : Char) : Chars :=
  if 'A' ≤ c ∧ c ≤ 'Z' then [Char.ofNat (c.toNat + 32)]
  else if c = 'Ç' then ['ç']
  else if c = 'Ğ' then ['ğ']
  else if c = 'İ' then ['i', '̇']
  else if c = 'Ö' then ['ö']
  else if c = 'Ş' then ['ş']
  else if c = 'Ü' then ['ü']
  else if c = 'ẞ' then ['ß']
  else [c]

/-- Model of Python `str.lower`. -/
def pyLower (s : Chars) : Chars := (s.map charLower).flatten

/-- The full case folding applied on top of lowercasing: of the characters in
scope only `ß` folds further, to `ss`. -/
def charFold (c : Char) : Chars := if c = 'ß' then ['s', 's'] else [c]

/-- Model of Python `str.casefold`, which on the characters in scope is the
full fold applied after lowercasing. -/
def pyCasefold (s : Chars) : Chars := ((pyLower s).map charFold).flatten

/-! ## Configuration constants (source lines 13-37) -/

def CONTAINER_NAME : Chars := "resmigazete".data

def FILE_PREFIX : Chars := "resmigazete_".data

def FILE_SUFFIX : Chars := ".json".data

/-- `BLACKLIST` (source lines 19-29): footer strings filtered out. -/
def BLACKLIST : List Chars :=
  [ "Genel Arama".data,
    "Arşiv".data,
    "Mükerrer Arşivi".data,
    "Resmî Gazete Tarihçesi".data,
    "Resmî Gazete Mevzuatı".data,
    "Mevzuat Bilgi Sistemi".data,
    "0 (312) 525 3427".data,
    "Bize Ulaşın".data,
    "Haritada göster".data ]

/-- `DEGISIKLIK_KEYWORDS` (source lines 32-37). -/
def DEGISIKLIK_KEYWORDS : List Chars :=
  [ "değişikliği".data,
    "değiştirilmesine".data,
    "değişiklik yapılmasına".data,
    "değiştirilmiş".data ]

/-! ## Classification helpers (source lines 45-58) -/

/-- `_classify` (source lines 45-51): keyword chain over the casefolded
title, first match wins. -/
def _classify (baslik : Chars) : Chars :=
  let t := pyCasefold baslik
  if isSub "yönetmelik".data t || isSub "yonetmelik".data t then "Yönetmelik".data
  else if isSub "tebliğ".data t || isSub "teblig".data t then "Tebliğ".data
  else if isSub "karar".data t then "Karar".data
  else if isSub "ilan".data t then "İlan".data
  else "Diğer".data

/-- `classify_yonetmelik` (source lines 53-58): the Python loop over
`DEGISIKLIK_KEYWORDS` returns at the first keyword contained in the
lowercased title, which is exactly an existence test over the list. -/
def classify_yonetmelik (title : Chars) : Chars :=
  let tl := pyLower title
  if DEGISIKLIK_KEYWORDS.any (fun kw => isSub kw tl) then "Değişiklik".data
  else "Yeni".data

/-! ## Page model and text extraction

A fetched HTML document is modelled by the list of its text segments
(BeautifulSoup's `soup.strings`); `get_text(separator, strip=True)` strips
each segment, discards the ones that become empty, and joins the remainder
with the separator. -/

def strippedSegs (segs : List Chars) : List Chars :=
  (segs.map pyStrip).filter (fun s => !s.isEmpty)

/-- `tag.get_text(strip=True)` — separator is the empty string. -/
def getTextStrip (segs : List Chars) : Chars := (strippedSegs segs).flatten

/-- `soup.get_text(separator="\n", strip=True)` as used on detail pages. -/
def getTextNL (segs : List Chars) : Chars :=
  List.intercalate "\n".data (strippedSegs segs)

/-- Outcome of fetching a URL: the text segments of the fetched document, or
the message of the `RequestException` raised after retries are exhausted. -/
abbrev Fetch := Chars → Except Chars (List Chars)

/-- The error marker `f"Hata: Sayfa alınamadı ({e})"` (source line 82). -/
def hataMsg (e : Chars) : Chars :=
  "Hata: Sayfa alınamadı (".data ++ e ++ ")".data

/-- `extract_text_from_page` (source lines 75-86): on fetch failure return
the error marker, otherwise the page text truncated to 2000 characters. -/
def extract_text_from_page (fetchDetail : Fetch) (link : Chars) : Chars :=
  match fetchDetail link with
  | .error e => hataMsg e
  | .ok segs => (getTextNL segs).take 2000

/-! ## The scraper (source lines 88-136) -/

/-- A candidate element of the main page: one of the `a`/`td` tags found by
`soup.find_all(["a", "td"])`, with its text segments and optional `href`
attribute. -/
structure Tag where
  texts : List Chars
  href : Option Chars
deriving DecidableEq, Repr

/-- One row dict of the output.  `Tarih`, `Kategori` and `Başlık` are always
set; `Yönetmelik Türü`, `Link` and `Tam Metin` are the optional keys. -/
structure Row where
  tarih : Chars
  kategori : Chars
  baslik : Chars
  yonetmelikTuru : Option Chars
  link : Option Chars
  tamMetin : Option Chars
deriving DecidableEq, Repr

/-- An element of the returned `list[dict]`: either the single error dict of
a failed run (source line 97) or a scraped row. -/
inductive Entry where
  | err (msg : Chars)
  | row (r : Row)
deriving DecidableEq, Repr

/-- `urljoin(url, href) if href else None` (source line 109): a missing or
empty (falsy) `href` yields no link; otherwise the href is resolved against
the base URL by `resolve`, the model of `urllib.parse.urljoin`. -/
def mkLink (resolve : Chars → Chars) (href : Option Chars) : Option Chars :=
  match href with
  | none => none
  | some h => if h.isEmpty then none else some (resolve h)

/-- Building the row dict for one kept element (source lines 115-132).
The Python locals `kategori` and `yonetmelik_turu` are written inline. -/
def mkRow (fetchDetail : Fetch) (todayStr baslik link : Chars) : Row :=
  if _classify baslik = "Yönetmelik".data then
    if classify_yonetmelik baslik = "Yeni".data then
      { tarih := todayStr, kategori := _classify baslik, baslik := baslik,
        yonetmelikTuru := some (classify_yonetmelik baslik),
        link := some link, tamMetin := none }
    else
      { tarih := todayStr, kategori := _classify baslik, baslik := baslik,
        yonetmelikTuru := some (classify_yonetmelik baslik), link := none,
        tamMetin := some (extract_text_from_page fetchDetail link) }
  else
    { tarih := todayStr, kategori := _classify baslik, baslik := baslik,
      yonetmelikTuru := none, link := some link, tamMetin := none }

/-- The loop body for one candidate tag (source lines 104-134): `none` means
the `continue` branches, `some row` the appended row.  The filters run in
source order: length, link truthiness together with the `"tarihli ve"`
marker, then the blacklist. -/
def processTag (resolve : Chars → Chars) (fetchDetail : Fetch)
    (todayStr : Chars) (tag : Tag) : Option Row :=
  let baslik := getTextStrip tag.texts
  if baslik.length < 5 then none
  else
    match mkLink resolve tag.href with
    | none => none
    | some l =>
      if l.isEmpty then none
      else if isSub "tarihli ve".data (pyLower baslik) then none
      else if baslik ∈ BLACKLIST then none
      else some (mkRow fetchDetail todayStr baslik l)

/-- `scrape_resmigazete` (source lines 88-136).  The fetch of the main page
either fails with an exception message or yields the candidate tags of the
parsed document. -/
def scrape_resmigazete (fetchMain : Except Chars (List Tag))
    (resolve : Chars → Chars) (fetchDetail : Fetch)
    (todayStr : Chars) : List Entry :=
  match fetchMain with
  | .error e => [Entry.err ("Failed to fetch Resmî Gazete: ".data ++ e)]
  | .ok tags => (tags.filterMap (processTag resolve fetchDetail todayStr)).map Entry.row

/-! ## Script mode (source lines 174-180) -/

/-- Model of `strftime` zero-padded two-digit fields (`%d`, `%m`), valid for
the day and month ranges `strftime` produces. -/
def pad2 (n : Nat) : Chars := [Nat.digitChar (n / 10 % 10), Nat.digitChar (n % 10)]

/-- Model of `strftime` `%Y` for four-digit years. -/
def year4 (y : Nat) : Chars :=
  [Nat.digitChar (y / 1000 % 10), Nat.digitChar (y / 100 % 10),
   Nat.digitChar (y / 10 % 10), Nat.digitChar (y % 10)]

/-- `datetime.utcnow().strftime("%d.%m.%Y")` for the UTC date `(d, m, y)`. -/
def formatDMY (d m y : Nat) : Chars :=
  pad2 d ++ '.' :: pad2 m ++ '.' :: year4 y

/-- The `__main__` block (source lines 174-180): run the scraper and write
the dated artifact unconditionally.  The returned pair is the written file:
its name and its contents (the list serialized by `json.dump`). -/
def scriptMain (fetchMain : Except Chars (List Tag)) (resolve : Chars → Chars)
    (fetchDetail : Fetch) (d m y : Nat) : Chars × List Entry :=
  let todayStr := formatDMY d m y
  (FILE_PREFIX ++ todayStr ++ FILE_SUFFIX,
   scrape_resmigazete fetchMain resolve fetchDetail todayStr)

/-! ## HTTP endpoint `GET /scrape` (source lines 139-171)

The storage SDK is the external collaborator: the environment lookup, the
blob listing and the per-blob download are parameters, each an `Except`
whose error is the message of the raised exception.  The Python `try` block
catches any of those exceptions and maps it to the 500 response. -/

/-- One stored blob as the listing reports it: its name, its
`last_modified` timestamp (modelled as a totally ordered tick count) and the
bytes `download_blob().readall()` would return. -/
structure Blob where
  name : Chars
  lastModified : Nat
  content : Chars
deriving DecidableEq, Repr

/-- Response bodies: the serialized `\x7b"error": msg\x7d` object produced by
`json.dumps`, or raw bytes passed through from storage. -/
inductive HBody where
  | errObj (msg : Chars)
  | bytes (b : Chars)
deriving DecidableEq, Repr

structure HttpResponse where
  status : Nat
  body : HBody
  noStore : Bool
deriving DecidableEq, Repr

/-- `max(blobs, key=lambda b: b.last_modified)`: Python's `max` keeps the
current maximum and replaces it only when a later element's key is strictly
greater, so the first of equal keys wins. -/
def pyMaxLM : Blob → List Blob → Blob
  | cur, [] => cur
  | cur, x :: t => pyMaxLM (if cur.lastModified < x.lastModified then x else cur) t

/-- The body of the `try` block (source lines 142-164), with the raising
steps sequenced in `Except`: environment lookup, listing, then download of
the latest blob.  The early 404 return is a successful result. -/
def scrapeCore (env : Except Chars Unit) (listing : Except Chars (List Blob))
    (download : Chars → Except Chars Chars) : Except Chars HttpResponse := do
  let _ ← env
  let blobs ← listing
  match blobs with
  | [] =>
    pure { status := 404,
           body := .errObj "No JSON files found in container.".data,
           noStore := false }
  | b :: rest =>
    let latest := pyMaxLM b rest
    let data ← download latest.name
    pure { status := 200, body := .bytes data, noStore := true }

/-- The `scrape` endpoint (source lines 139-171): the `except Exception`
handler turns any raised error into the 500 response with a JSON error
object. -/
def scrape (env : Except Chars Unit) (listing : Except Chars (List Blob))
    (download : Chars → Except Chars Chars) : HttpResponse :=
  match scrapeCore env listing download with
  | .ok r => r
  | .error e => { status := 500, body := .errObj e, noStore := false }

/-! ## Concrete fixtures used to instantiate the theorems -/

/-- A detail fetch that always fails with a short exception message. -/
def fdNone : Fetch := fun _ => .error "err".data

/-- A detail fetch that always fails with a 2000-character exception
message (for instance a request error whose text embeds a long URL). -/
def fdFail2000 : Fetch := fun _ => .error (List.replicate 2000 'x')

def baslikAmend : Chars :=
  "X Yönetmeliğinde Değişiklik Yapılmasına Dair Yönetmelik".data

/-- An amendment-to-regulation entry of the main page. -/
def tagAmend : Tag := { texts := [baslikAmend], href := some "d".data }

/-- An element whose text keeps length 6 after stripping but collapses to
3 characters under full whitespace normalization. -/
def tagPad : Tag := { texts := ["a    b".data], href := some "h".data }

def tagShort : Tag := { texts := ["ab".data], href := some "h".data }

def tagKarar : Tag := { texts := ["2024/123 sayılı Karar".data], href := some "k".data }

def rowKarar : Row := mkRow fdNone (formatDMY 1 2 2025) "2024/123 sayılı Karar".data "k".data

def rowAmendFail : Row := mkRow fdNone "01.01.2025".data baslikAmend "d".data

def blobOld : Blob :=
  { name := "resmigazete_02.01.2025.json".data, lastModified := 5, content := "OLD".data }

def blobNew : Blob :=
  { name := "resmigazete_01.01.2025.json".data, lastModified := 9, content := "NEW".data }

/-- A download collaborator agreeing with the two stored blobs. -/
def dlTwo : Chars → Except Chars Chars := fun n =>
  if n = blobNew.name then .ok blobNew.content else .ok blobOld.content

/-! ## Statement-level predicates naming the keyword conditions -/

/-- The regulation keyword set matches the casefolded title. -/
def hasYonKw (t : Chars) : Bool :=
  isSub "yönetmelik".data (pyCasefold t) || isSub "yonetmelik".data (pyCasefold t)

/-- The communiqué keyword set matches the casefolded title. -/
def hasTebKw (t : Chars) : Bool :=
  isSub "tebliğ".data (pyCasefold t) || isSub "teblig".data (pyCasefold t)

/-- The decision keyword matches the casefolded title. -/
def hasKararKw (t : Chars) : Bool := isSub "karar".data (pyCasefold t)

/-- The notice keyword matches the casefolded title. -/
def hasIlanKw (t : Chars) : Bool := isSub "ilan".data (pyCasefold t)

/-- Some amendment keyword matches the lowercased title. -/
def hasDegisiklikKw (t : Chars) : Bool :=
  DEGISIKLIK_KEYWORDS.any (fun kw => isSub kw (pyLower t))

/-- The normal form `collapseWS` establishes: no two adjacent whitespace
characters, and every whitespace character is the plain space. -/
def SpacedOK (l : Chars) : Prop :=
  List.Chain' (fun a b => ¬(isSpace a = true ∧ isSpace b = true)) l ∧
  ∀ c ∈ l, isSpace c = true → c = ' '

/-! # Theorems -/

theorem collapseWS_cons_not_space {b : Char} (t : Chars) (hb : isSpace b = false) :
    ∃ l', collapseWS (b :: t) = b :: l' := by
  cases t with
  | nil => exact ⟨[], by simp [collapseWS, hb]⟩
  | cons c t' => exact ⟨collapseWS (c :: t'), by simp [collapseWS, hb]⟩

theorem collapseWS_spacedOK (l : Chars) : SpacedOK (collapseWS l) := by
  induction l using collapseWS.induct with
  | case1 => exact ⟨List.chain'_nil, by simp [collapseWS]⟩
  | case2 c hc =>
    refine ⟨?_, ?_⟩
    · rw [collapseWS, if_pos hc]; exact List.chain'_singleton _
    · intro x hx _
      rw [collapseWS, if_pos hc] at hx
      simpa using hx
  | case3 c hc =>
    refine ⟨?_, ?_⟩
    · rw [collapseWS, if_neg hc]; exact List.chain'_singleton _
    · intro x hx hsp
      rw [collapseWS, if_neg hc] at hx
      simp only [List.mem_singleton] at hx
      subst hx
      exact absurd hsp hc
  | case4 a b t hab ih =>
    rw [collapseWS, if_pos hab]
    exact ih
  | case5 a b t hab ih =>
    constructor
    · rw [collapseWS, if_neg hab]
      rw [List.chain'_cons']
      refine ⟨?_, ih.1⟩
      intro y hy
      by_cases hsa : isSpace a = true
      · have hb : isSpace b = false := by
          cases hsb : isSpace b <;> simp_all
        obtain ⟨l', hl'⟩ := collapseWS_cons_not_space t hb
        rw [hl'] at hy
        simp only [List.head?_cons, Option.mem_def, Option.some.injEq] at hy
        subst hy
        simp [hsa, hb]
      · simp [hsa]
    · intro x hx hsp
      rw [collapseWS, if_neg hab] at hx
      rcases List.mem_cons.mp hx with h | h
      · subst h
        by_cases hsa : isSpace a = true
        · simp [hsa]
        · rw [if_neg (by simp [hsa])] at hsp
          exact absurd hsp (by simp [hsa])
      · exact ih.2 x h hsp

theorem collapseWS_fixed (l : Chars) (h : SpacedOK l) : collapseWS l = l := by
  induction l using collapseWS.induct with
  | case1 => rfl
  | case2 c hc =>
    rw [collapseWS, if_pos hc, h.2 c (by simp) hc]
  | case3 c hc =>
    rw [collapseWS, if_neg hc]
  | case4 a b t hab ih =>
    exfalso
    have := (List.chain'_cons.mp h.1).1
    cases hsa : isSpace a <;> cases hsb : isSpace b <;> simp_all
  | case5 a b t hab ih =>
    rw [collapseWS, if_neg hab]
    have ht : SpacedOK (b :: t) :=
      ⟨(List.chain'_cons.mp h.1).2, fun c hc => h.2 c (List.mem_cons_of_mem _ hc)⟩
    rw [ih ht]
    by_cases hsa : isSpace a = true
    · rw [if_pos hsa, h.2 a (by simp) hsa]
    · rw [if_neg (by simp [hsa])]

theorem rdropWhile_append_eq (p : Char → Bool) (x : Chars) :
    ∃ t, x.rdropWhile p ++ t = x := by
  obtain ⟨s, hs⟩ := List.dropWhile_suffix (l := x.reverse) p
  refine ⟨s.reverse, ?_⟩
  unfold List.rdropWhile
  rw [← List.reverse_append, hs, List.reverse_reverse]

theorem pyStrip_spacedOK (l : Chars) (h : SpacedOK l) : SpacedOK (pyStrip l) := by
  have hsuf : l.dropWhile isSpace <:+ l := List.dropWhile_suffix _
  obtain ⟨t, ht⟩ := rdropWhile_append_eq isSpace (l.dropWhile isSpace)
  have hmid : SpacedOK (l.dropWhile isSpace) :=
    ⟨h.1.suffix hsuf, fun c hc => h.2 c (hsuf.sublist.subset hc)⟩
  unfold pyStrip
  constructor
  · have hch := hmid.1
    rw [← ht] at hch
    exact (List.chain'_append.mp hch).1
  · intro c hc hsp
    apply hmid.2 c _ hsp
    rw [← ht]
    exact List.mem_append_left _ hc

theorem dropWhile_of_fixed_after_rdrop (p : Char → Bool) (x : Chars)
    (hx : x.dropWhile p = x) : (x.rdropWhile p).dropWhile p = x.rdropWhile p := by
  obtain ⟨t, ht⟩ := rdropWhile_append_eq p x
  cases hr : x.rdropWhile p with
  | nil => rfl
  | cons a l' =>
    rw [hr] at ht
    have hxa : x = a :: (l' ++ t) := by rw [← ht]; rfl
    have hpa : p a = false := by
      have := hx
      rw [hxa] at this
      rw [List.dropWhile_cons] at this
      by_cases hp : p a = true
      · rw [if_pos hp] at this
        have hlen := congrArg List.length this
        rw [List.length_cons] at hlen
        have hle : (List.dropWhile p (l' ++ t)).length ≤ (l' ++ t).length :=
          (List.dropWhile_suffix p).sublist.length_le
        omega
      · simpa using hp
    rw [List.dropWhile_cons, hpa]
    simp

theorem pyStrip_idem (l : Chars) : pyStrip (pyStrip l) = pyStrip l := by
  unfold pyStrip
  rw [dropWhile_of_fixed_after_rdrop isSpace (l.dropWhile isSpace)
        (List.dropWhile_idempotent _ _),
      List.rdropWhile_idempotent]

/-- C9: title whitespace normalization is idempotent: for every string `s`,
`_temizle (_temizle s) = _temizle s`. -/
theorem temizle_idempotent (s : Chars) : _temizle (_temizle s) = _temizle s := by
  unfold _temizle
  have h1 := collapseWS_spacedOK s
  have h2 := pyStrip_spacedOK _ h1
  rw [collapseWS_fixed _ h2]
  exact pyStrip_idem _

/-! ## Classification (C4) -/

theorem _classify_eq (t : Chars) :
    _classify t =
      (if hasYonKw t then "Yönetmelik".data
       else if hasTebKw t then "Tebliğ".data
       else if hasKararKw t then "Karar".data
       else if hasIlanKw t then "İlan".data
       else "Diğer".data) := rfl

theorem pyCasefold_of_pyLower {t₁ t₂ : Chars} (h : pyLower t₁ = pyLower t₂) :
    pyCasefold t₁ = pyCasefold t₂ := by
  unfold pyCasefold
  rw [h]

/-- C4: every title gets exactly one of the five categories, chosen by
case-insensitive substring search in the fixed priority order — regulation,
then communiqué, then decision, then notice, with everything unmatched
falling to Diğer (first match wins) — and both the category and the
Yönetmelik subtype are functions of the lowercased title, so identical
titles always yield identical category and subtype. -/
theorem classification_priority_and_determinism (t : Chars) :
    (_classify t = "Yönetmelik".data ∨ _classify t = "Tebliğ".data ∨
       _classify t = "Karar".data ∨ _classify t = "İlan".data ∨
       _classify t = "Diğer".data)
    ∧ (hasYonKw t = true → _classify t = "Yönetmelik".data)
    ∧ (hasYonKw t = false → hasTebKw t = true → _classify t = "Tebliğ".data)
    ∧ (hasYonKw t = false → hasTebKw t = false → hasKararKw t = true →
        _classify t = "Karar".data)
    ∧ (hasYonKw t = false → hasTebKw t = false → hasKararKw t = false →
        hasIlanKw t = true → _classify t = "İlan".data)
    ∧ (hasYonKw t = false → hasTebKw t = false → hasKararKw t = false →
        hasIlanKw t = false → _classify t = "Diğer".data)
    ∧ (∀ t₂, pyLower t = pyLower t₂ →
        _classify t = _classify t₂ ∧ classify_yonetmelik t = classify_yonetmelik t₂) := by
  refine ⟨?_, ?_, ?_, ?_, ?_, ?_, ?_⟩
  · rw [_classify_eq]
    split_ifs <;> simp
  · intro h; rw [_classify_eq, if_pos h]
  · intro h1 h2
    rw [_classify_eq, if_neg (by simp [h1]), if_pos h2]
  · intro h1 h2 h3
    rw [_classify_eq, if_neg (by simp [h1]), if_neg (by simp [h2]), if_pos h3]
  · intro h1 h2 h3 h4
    rw [_classify_eq, if_neg (by simp [h1]), if_neg (by simp [h2]),
        if_neg (by simp [h3]), if_pos h4]
  · intro h1 h2 h3 h4
    rw [_classify_eq, if_neg (by simp [h1]), if_neg (by simp [h2]),
        if_neg (by simp [h3]), if_neg (by simp [h4])]
  · intro t₂ h
    have hc : pyCasefold t = pyCasefold t₂ := pyCasefold_of_pyLower h
    constructor
    · unfold _classify
      rw [hc]
    · unfold classify_yonetmelik
      rw [h]

/-- Closed instance of C4: the priority rule applied to a concrete
regulation title. -/
theorem classification_priority_witness :
    _classify "Deneme Yönetmelik".data = "Yönetmelik".data :=
  (classification_priority_and_determinism "Deneme Yönetmelik".data).2.1 (by decide)

/-! ## Row construction helper lemmas -/

theorem classify_yonetmelik_eq (t : Chars) :
    classify_yonetmelik t =
      (if hasDegisiklikKw t then "Değişiklik".data else "Yeni".data) := rfl

theorem processTag_eq (resolve : Chars → Chars) (fd : Fetch) (ts : Chars) (tag : Tag) :
    processTag resolve fd ts tag =
      (if (getTextStrip tag.texts).length < 5 then none
       else
         match mkLink resolve tag.href with
         | none => none
         | some l =>
           if l.isEmpty then none
           else if isSub "tarihli ve".data (pyLower (getTextStrip tag.texts)) then none
           else if getTextStrip tag.texts ∈ BLACKLIST then none
           else some (mkRow fd ts (getTextStrip tag.texts) l)) := rfl

theorem mkRow_basic (fd : Fetch) (ts baslik link : Chars) :
    (mkRow fd ts baslik link).tarih = ts
    ∧ (mkRow fd ts baslik link).kategori = _classify baslik
    ∧ (mkRow fd ts baslik link).baslik = baslik := by
  unfold mkRow
  split_ifs <;> exact ⟨rfl, rfl, rfl⟩

theorem mkRow_yonetmelik_yeni (fd : Fetch) (ts baslik link : Chars)
    (hk : _classify baslik = "Yönetmelik".data)
    (hd : hasDegisiklikKw baslik = false) :
    (mkRow fd ts baslik link).yonetmelikTuru = some "Yeni".data
    ∧ (mkRow fd ts baslik link).link = some link
    ∧ (mkRow fd ts baslik link).tamMetin = none := by
  have ht : classify_yonetmelik baslik = "Yeni".data := by
    rw [classify_yonetmelik_eq, if_neg (by simp [hd])]
  unfold mkRow
  rw [hk, ht, if_pos rfl, if_pos rfl]
  exact ⟨rfl, rfl, rfl⟩

theorem mkRow_yonetmelik_amend (fd : Fetch) (ts baslik link : Chars)
    (hk : _classify baslik = "Yönetmelik".data)
    (hd : hasDegisiklikKw baslik = true) :
    (mkRow fd ts baslik link).yonetmelikTuru = some "Değişiklik".data
    ∧ (mkRow fd ts baslik link).link = none
    ∧ (mkRow fd ts baslik link).tamMetin = some (extract_text_from_page fd link) := by
  have ht : classify_yonetmelik baslik = "Değişiklik".data := by
    rw [classify_yonetmelik_eq, if_pos hd]
  unfold mkRow
  rw [hk, ht, if_pos rfl, if_neg (by decide)]
  exact ⟨rfl, rfl, rfl⟩

theorem mkRow_other (fd : Fetch) (ts baslik link : Chars)
    (hk : _classify baslik ≠ "Yönetmelik".data) :
    (mkRow fd ts baslik link).yonetmelikTuru = none
    ∧ (mkRow fd ts baslik link).link = some link
    ∧ (mkRow fd ts baslik link).tamMetin = none := by
  unfold mkRow
  rw [if_neg hk]
  exact ⟨rfl, rfl, rfl⟩

theorem processTag_some {resolve : Chars → Chars} {fd : Fetch} {ts : Chars}
    {tag : Tag} {r : Row} (h : processTag resolve fd ts tag = some r) :
    ∃ l, mkLink resolve tag.href = some l
      ∧ r = mkRow fd ts (getTextStrip tag.texts) l := by
  rw [processTag_eq] at h
  by_cases h5 : (getTextStrip tag.texts).length < 5
  · rw [if_pos h5] at h; cases h
  · rw [if_neg h5] at h
    cases hml : mkLink resolve tag.href with
    | none => rw [hml] at h; cases h
    | some l =>
      rw [hml] at h
      dsimp only at h
      refine ⟨l, rfl, ?_⟩
      split_ifs at h
      exact (Option.some.inj h).symm

theorem mem_scrape_ok {tags : List Tag} {resolve : Chars → Chars} {fd : Fetch}
    {ts : Chars} {r : Row} :
    Entry.row r ∈ scrape_resmigazete (.ok tags) resolve fd ts ↔
      ∃ tag ∈ tags, processTag resolve fd ts tag = some r := by
  unfold scrape_resmigazete
  simp [List.mem_map, List.mem_filterMap]

/-! ## C5: fields of Yönetmelik records -/

/-- C5: every record of a run classified as Yönetmelik has, when its title
contains no amendment keyword, subtype Yeni with a `Link` field and no
`Tam Metin` field, and, when its title contains an amendment keyword,
subtype Değişiklik with a `Tam Metin` field and no `Link` field. -/
theorem yonetmelik_subtype_fields (tags : List Tag) (resolve : Chars → Chars)
    (fd : Fetch) (ts : Chars) (r : Row)
    (hr : Entry.row r ∈ scrape_resmigazete (.ok tags) resolve fd ts)
    (hk : r.kategori = "Yönetmelik".data) :
    (hasDegisiklikKw r.baslik = false →
       r.yonetmelikTuru = some "Yeni".data ∧ r.link.isSome = true ∧ r.tamMetin = none)
    ∧ (hasDegisiklikKw r.baslik = true →
       r.yonetmelikTuru = some "Değişiklik".data ∧ r.tamMetin.isSome = true ∧ r.link = none) := by
  obtain ⟨tag, -, hp⟩ := mem_scrape_ok.mp hr
  obtain ⟨l, -, rfl⟩ := processTag_some hp
  obtain ⟨-, hkat, hbas⟩ := mkRow_basic fd ts (getTextStrip tag.texts) l
  rw [hkat] at hk
  rw [hbas]
  constructor
  · intro hd
    obtain ⟨h1, h2, h3⟩ := mkRow_yonetmelik_yeni fd ts (getTextStrip tag.texts) l hk hd
    exact ⟨h1, by rw [h2]; rfl, h3⟩
  · intro hd
    obtain ⟨h1, h2, h3⟩ := mkRow_yonetmelik_amend fd ts (getTextStrip tag.texts) l hk hd
    exact ⟨h1, by rw [h3]; rfl, h2⟩

/-- Closed instance of C5 at a concrete amendment title. -/
theorem yonetmelik_subtype_fields_witness :
    rowAmendFail.yonetmelikTuru = some "Değişiklik".data
    ∧ rowAmendFail.tamMetin.isSome = true ∧ rowAmendFail.link = none :=
  (yonetmelik_subtype_fields [tagAmend] id fdNone "01.01.2025".data rowAmendFail
    (by decide) (by decide)).2 (by decide)

/-! ## C10: invariants of every record of a run -/

theorem digitChar_mod_isDigit (k : Nat) : (Nat.digitChar (k % 10)).isDigit = true := by
  have h : k % 10 < 10 := Nat.mod_lt _ (by norm_num)
  set j := k % 10 with hj
  interval_cases j <;> decide

/-- C10: every record of a successful run carries `Tarih`, `Kategori` and
`Başlık` (structurally always present), exactly one of `Link` and
`Tam Metin` — `Tam Metin` exactly when the category is Yönetmelik with
subtype Değişiklik — and its `Tarih` is the run's UTC date formatted
`DD.MM.YYYY`. -/
theorem run_record_invariants (d m y : Nat) (tags : List Tag)
    (resolve : Chars → Chars) (fd : Fetch) (r : Row)
    (hr : Entry.row r ∈ scrape_resmigazete (.ok tags) resolve fd (formatDMY d m y)) :
    r.tarih = formatDMY d m y
    ∧ (∃ c₁ c₂ c₃ c₄ c₅ c₆ c₇ c₈,
        r.tarih = [c₁, c₂, '.', c₃, c₄, '.', c₅, c₆, c₇, c₈]
        ∧ c₁.isDigit = true ∧ c₂.isDigit = true ∧ c₃.isDigit = true ∧ c₄.isDigit = true
        ∧ c₅.isDigit = true ∧ c₆.isDigit = true ∧ c₇.isDigit = true ∧ c₈.isDigit = true)
    ∧ ((r.link.isSome = true ∧ r.tamMetin = none)
        ∨ (r.link = none ∧ r.tamMetin.isSome = true))
    ∧ (r.tamMetin.isSome = true ↔
        (r.kategori = "Yönetmelik".data ∧ r.yonetmelikTuru = some "Değişiklik".data)) := by
  obtain ⟨tag, -, hp⟩ := mem_scrape_ok.mp hr
  obtain ⟨l, -, rfl⟩ := processTag_some hp
  set baslik := getTextStrip tag.texts with hbdef
  obtain ⟨htar, hkat, -⟩ := mkRow_basic fd (formatDMY d m y) baslik l
  refine ⟨htar, ?_, ?_, ?_⟩
  · rw [htar]
    exact ⟨_, _, _, _, _, _, _, _, rfl,
      digitChar_mod_isDigit (d / 10), digitChar_mod_isDigit d,
      digitChar_mod_isDigit (m / 10), digitChar_mod_isDigit m,
      digitChar_mod_isDigit (y / 1000), digitChar_mod_isDigit (y / 100),
      digitChar_mod_isDigit (y / 10), digitChar_mod_isDigit y⟩
  · by_cases hy : _classify baslik = "Yönetmelik".data
    · by_cases hd : hasDegisiklikKw baslik = true
      · obtain ⟨-, h2, h3⟩ := mkRow_yonetmelik_amend fd (formatDMY d m y) baslik l hy hd
        exact Or.inr ⟨h2, by rw [h3]; rfl⟩
      · obtain ⟨-, h2, h3⟩ := mkRow_yonetmelik_yeni fd (formatDMY d m y) baslik l hy
          (by simpa using hd)
        exact Or.inl ⟨by rw [h2]; rfl, h3⟩
    · obtain ⟨-, h2, h3⟩ := mkRow_other fd (formatDMY d m y) baslik l hy
      exact Or.inl ⟨by rw [h2]; rfl, h3⟩
  · by_cases hy : _classify baslik = "Yönetmelik".data
    · by_cases hd : hasDegisiklikKw baslik = true
      · obtain ⟨h1, -, h3⟩ := mkRow_yonetmelik_amend fd (formatDMY d m y) baslik l hy hd
        rw [h3, hkat, h1, hy]
        simp
      · obtain ⟨h1, -, h3⟩ := mkRow_yonetmelik_yeni fd (formatDMY d m y) baslik l hy
          (by simpa using hd)
        rw [h3, h1]
        constructor
        · intro h; cases h
        · rintro ⟨-, h⟩
          exact absurd (Option.some.inj h) (by decide)
    · obtain ⟨h1, -, h3⟩ := mkRow_other fd (formatDMY d m y) baslik l hy
      rw [h3, hkat, h1]
      constructor
      · intro h; cases h
      · rintro ⟨h, -⟩
        exact absurd h hy

/-- Closed instance of C10 at a concrete run. -/
theorem run_record_invariants_witness : rowKarar.tarih = formatDMY 1 2 2025 :=
  (run_record_invariants 1 2 2025 [tagKarar] id fdNone rowKarar (by decide)).1

/-! ## C7: a failed detail fetch is localized to one record -/

theorem mkRow_congr {f₁ f₂ : Fetch} (ts baslik l : Chars) (h : f₁ l = f₂ l) :
    mkRow f₁ ts baslik l = mkRow f₂ ts baslik l := by
  unfold mkRow extract_text_from_page
  rw [h]

/-- C7: a record whose filters pass is included in the run output whatever
the detail fetch does; the decision to include an element does not depend on
the fetch at all; when the fetch for the record's link fails definitively the
record's `Tam Metin`, if it has one, is the error marker; and two fetch
collaborators agreeing on an element's link produce identical records for
that element, so one link's failure affects no other record's fields. -/
theorem detail_failure_localized :
    (∀ (resolve : Chars → Chars) (fd : Fetch) (ts : Chars) (tags : List Tag)
        (tag : Tag) (r : Row),
        tag ∈ tags → processTag resolve fd ts tag = some r →
        Entry.row r ∈ scrape_resmigazete (.ok tags) resolve fd ts)
    ∧ (∀ (resolve : Chars → Chars) (f₁ f₂ : Fetch) (ts : Chars) (tag : Tag),
        (processTag resolve f₁ ts tag).isSome = (processTag resolve f₂ ts tag).isSome)
    ∧ (∀ (resolve : Chars → Chars) (fd : Fetch) (ts : Chars) (tag : Tag)
        (r : Row) (l e : Chars),
        mkLink resolve tag.href = some l → fd l = .error e →
        processTag resolve fd ts tag = some r →
        r.tamMetin = none ∨ r.tamMetin = some (hataMsg e))
    ∧ (∀ (resolve : Chars → Chars) (f₁ f₂ : Fetch) (ts : Chars) (tag : Tag),
        (∀ l, mkLink resolve tag.href = some l → f₁ l = f₂ l) →
        processTag resolve f₁ ts tag = processTag resolve f₂ ts tag) := by
  refine ⟨?_, ?_, ?_, ?_⟩
  · intro resolve fd ts tags tag r htag hp
    exact mem_scrape_ok.mpr ⟨tag, htag, hp⟩
  · intro resolve f₁ f₂ ts tag
    rw [processTag_eq, processTag_eq]
    by_cases h5 : (getTextStrip tag.texts).length < 5
    · rw [if_pos h5, if_pos h5]
    · rw [if_neg h5, if_neg h5]
      cases mkLink resolve tag.href with
      | none => rfl
      | some l =>
        dsimp only
        split_ifs <;> rfl
  · intro resolve fd ts tag r l e hml he hp
    obtain ⟨l', hml', rfl⟩ := processTag_some hp
    rw [hml] at hml'
    cases Option.some.inj hml'
    by_cases hy : _classify (getTextStrip tag.texts) = "Yönetmelik".data
    · by_cases hd : hasDegisiklikKw (getTextStrip tag.texts) = true
      · right
        rw [(mkRow_yonetmelik_amend fd ts (getTextStrip tag.texts) l hy hd).2.2]
        unfold extract_text_from_page
        rw [he]
      · exact Or.inl (mkRow_yonetmelik_yeni fd ts (getTextStrip tag.texts) l hy
          (by simpa using hd)).2.2
    · exact Or.inl (mkRow_other fd ts (getTextStrip tag.texts) l hy).2.2
  · intro resolve f₁ f₂ ts tag h
    rw [processTag_eq, processTag_eq]
    by_cases h5 : (getTextStrip tag.texts).length < 5
    · rw [if_pos h5, if_pos h5]
    · rw [if_neg h5, if_neg h5]
      cases hml : mkLink resolve tag.href with
      | none => rfl
      | some l =>
        dsimp only
        split_ifs <;> try rfl
        rw [mkRow_congr ts (getTextStrip tag.texts) l (h l hml)]

/-- Closed instance of C7: the failing fetch leaves the amendment record in
place with the error marker as its `Tam Metin`. -/
theorem detail_failure_localized_witness :
    rowAmendFail.tamMetin = none ∨ rowAmendFail.tamMetin = some (hataMsg "err".data) :=
  detail_failure_localized.2.2.1 id fdNone "01.01.2025".data tagAmend rowAmendFail
    "d".data "err".data (by decide) rfl (by decide)

/-! ## C8: the minimum-length filter -/

/-- C8 counterexample: the element with visible text `"a    b"` measures 3
characters after full whitespace normalization (strip and collapse), yet the
code filters on the length after `get_text(strip=True)` only — which is 6 —
so the record appears in the output. -/
theorem short_title_filter_cex :
    (_temizle (getTextStrip tagPad.texts)).length < 5
    ∧ ∃ r, Entry.row r ∈ scrape_resmigazete (.ok [tagPad]) id fdNone "01.01.2025".data
        ∧ r.baslik = getTextStrip tagPad.texts :=
  ⟨by decide,
   mkRow fdNone "01.01.2025".data "a    b".data "h".data, by decide, by decide⟩

/-- C8 amended: an element whose text is shorter than 5 characters after
`get_text(strip=True)` (each segment stripped and the parts joined, internal
whitespace runs not collapsed) contributes no record, and a page of only
such elements yields the empty output. -/
theorem short_title_filter_amended :
    (∀ (resolve : Chars → Chars) (fd : Fetch) (ts : Chars) (tag : Tag),
        (getTextStrip tag.texts).length < 5 → processTag resolve fd ts tag = none)
    ∧ (∀ (resolve : Chars → Chars) (fd : Fetch) (ts : Chars) (tags : List Tag),
        (∀ t ∈ tags, (getTextStrip t.texts).length < 5) →
        scrape_resmigazete (.ok tags) resolve fd ts = []) := by
  have h1 : ∀ (resolve : Chars → Chars) (fd : Fetch) (ts : Chars) (tag : Tag),
      (getTextStrip tag.texts).length < 5 → processTag resolve fd ts tag = none := by
    intro resolve fd ts tag h
    rw [processTag_eq, if_pos h]
  refine ⟨h1, ?_⟩
  intro resolve fd ts tags h
  show (tags.filterMap (processTag resolve fd ts)).map Entry.row = []
  rw [List.filterMap_eq_nil_iff.mpr (fun t ht => h1 resolve fd ts t (h t ht))]
  rfl

/-- Closed instance of the amended C8 at a 2-character element. -/
theorem short_title_filter_amended_witness :
    processTag id fdNone "x".data tagShort = none :=
  short_title_filter_amended.1 id fdNone "x".data tagShort (by decide)

/-! ## C6: the `Tam Metin` length bound -/

/-- C6 counterexample: when the detail fetch fails with a 2000-character
exception message, the stored `Tam Metin` is the untruncated error marker of
2024 characters — the 2000-character bound holds only for the successful
fetch path. -/
theorem full_text_exceeds_limit_cex :
    ∃ r s, Entry.row r ∈ scrape_resmigazete (.ok [tagAmend]) id fdFail2000 "01.01.2025".data
      ∧ r.tamMetin = some s ∧ 2000 < s.length := by
  have hb : getTextStrip tagAmend.texts = baslikAmend := by decide
  have hy : _classify baslikAmend = "Yönetmelik".data := by decide
  have hd : hasDegisiklikKw baslikAmend = true := by decide
  refine ⟨mkRow fdFail2000 "01.01.2025".data baslikAmend "d".data,
    hataMsg (List.replicate 2000 'x'), ?_, ?_, ?_⟩
  · apply mem_scrape_ok.mpr
    refine ⟨tagAmend, by simp, ?_⟩
    rw [processTag_eq, hb]
    rw [if_neg (by decide)]
    show (if ("d".data).isEmpty = true then none
          else if isSub "tarihli ve".data (pyLower baslikAmend) then none
          else if baslikAmend ∈ BLACKLIST then none
          else some (mkRow fdFail2000 "01.01.2025".data baslikAmend "d".data)) = _
    rw [if_neg (by decide), if_neg (by decide), if_neg (by decide)]
  · rw [(mkRow_yonetmelik_amend fdFail2000 "01.01.2025".data baslikAmend "d".data hy hd).2.2]
    rfl
  · have h23 : ("Hata: Sayfa alınamadı (".data).length = 23 := by decide
    have h1 : (")".data).length = 1 := by decide
    unfold hataMsg
    rw [List.length_append, List.length_append, List.length_replicate, h23, h1]
    omega

/-- C6 amended: every stored `Tam Metin` is either at most 2000 characters
(the successful-fetch path, truncated) or the error marker built from the
fetch failure's message, which is not truncated. -/
theorem full_text_bound_amended (tags : List Tag) (resolve : Chars → Chars)
    (fd : Fetch) (ts : Chars) (r : Row) (s : Chars)
    (hr : Entry.row r ∈ scrape_resmigazete (.ok tags) resolve fd ts)
    (hs : r.tamMetin = some s) :
    (∃ e, s = hataMsg e) ∨ s.length ≤ 2000 := by
  obtain ⟨tag, -, hp⟩ := mem_scrape_ok.mp hr
  obtain ⟨l, -, rfl⟩ := processTag_some hp
  set baslik := getTextStrip tag.texts with hbdef
  by_cases hy : _classify baslik = "Yönetmelik".data
  · by_cases hd : hasDegisiklikKw baslik = true
    · rw [(mkRow_yonetmelik_amend fd ts baslik l hy hd).2.2] at hs
      cases Option.some.inj hs
      unfold extract_text_from_page
      cases hf : fd l with
      | error e => exact Or.inl ⟨e, rfl⟩
      | ok segs =>
        right
        show ((getTextNL segs).take 2000).length ≤ 2000
        rw [List.length_take]
        exact min_le_left _ _
    · rw [(mkRow_yonetmelik_yeni fd ts baslik l hy (by simpa using hd)).2.2] at hs
      cases hs
  · rw [(mkRow_other fd ts baslik l hy).2.2] at hs
    cases hs

/-- Closed instance of the amended C6 at a failing fetch. -/
theorem full_text_bound_amended_witness :
    (∃ e, hataMsg "err".data = hataMsg e) ∨ (hataMsg "err".data).length ≤ 2000 :=
  full_text_bound_amended [tagAmend] id fdNone "01.01.2025".data rowAmendFail
    (hataMsg "err".data) (by decide) (by decide)

/-! ## C1: failure of the main-page fetch -/

/-- C1 counterexample: when the main-page fetch fails, script mode still
writes the day's artifact — the dated file whose contents are the
single-element error list — contradicting `no snapshot artifact is written
for that day`. -/
theorem script_writes_artifact_on_fetch_failure :
    scriptMain (.error "timeout".data) id fdNone 7 10 2025
      = (FILE_PREFIX ++ "07.10.2025".data ++ FILE_SUFFIX,
         [Entry.err "Failed to fetch Resmî Gazete: timeout".data]) := by
  decide

/-- C1 amended: when the main-page fetch fails, the run returns the
single-element error list — nonempty, containing no row entry, hence
distinct from every successful run's output, which consists of row entries
only — but script mode still writes the dated artifact, its contents being
that error list. -/
theorem fetch_failure_error_result (e : Chars) (resolve : Chars → Chars)
    (fd : Fetch) (d m y : Nat) :
    scrape_resmigazete (.error e) resolve fd (formatDMY d m y)
        = [Entry.err ("Failed to fetch Resmî Gazete: ".data ++ e)]
    ∧ scrape_resmigazete (.error e) resolve fd (formatDMY d m y) ≠ []
    ∧ (∀ tags entry, entry ∈ scrape_resmigazete (.ok tags) resolve fd (formatDMY d m y) →
        ∃ row, entry = Entry.row row)
    ∧ scriptMain (.error e) resolve fd d m y
        = (FILE_PREFIX ++ formatDMY d m y ++ FILE_SUFFIX,
           [Entry.err ("Failed to fetch Resmî Gazete: ".data ++ e)]) := by
  refine ⟨rfl, by simp [scrape_resmigazete], ?_, rfl⟩
  intro tags entry h
  unfold scrape_resmigazete at h
  obtain ⟨row, -, hrow⟩ := List.mem_map.mp h
  exact ⟨row, hrow.symm⟩

/-- Closed instance of the amended C1: a successful run's entries are all
row entries. -/
theorem fetch_failure_error_result_witness :
    ∃ row, Entry.row rowKarar = Entry.row row :=
  (fetch_failure_error_result "x".data id fdNone 1 2 2025).2.2.1 [tagKarar]
    (Entry.row rowKarar) (by decide)

/-! ## C2, C3: the HTTP endpoint -/

theorem scrape_ok_cons (download : Chars → Except Chars Chars) (b : Blob)
    (rest : List Blob) :
    scrape (.ok ()) (.ok (b :: rest)) download =
      (match download (pyMaxLM b rest).name with
       | .ok data => { status := 200, body := .bytes data, noStore := true }
       | .error e => { status := 500, body := .errObj e, noStore := false }) := by
  unfold scrape scrapeCore
  cases hd : download (pyMaxLM b rest).name with
  | ok data =>
    show (match (Except.ok () >>= fun _ => Except.ok (b :: rest) >>= fun blobs =>
        match blobs with
        | [] => pure { status := 404,
                       body := .errObj "No JSON files found in container.".data,
                       noStore := false }
        | b :: rest => download (pyMaxLM b rest).name >>= fun data =>
            pure { status := 200, body := HBody.bytes data, noStore := true } :
        Except Chars HttpResponse) with
      | .ok r => r
      | .error e => { status := 500, body := .errObj e, noStore := false }) = _
    simp only [bind, Except.bind, pure, Except.pure, hd]
  | error e =>
    show (match (Except.ok () >>= fun _ => Except.ok (b :: rest) >>= fun blobs =>
        match blobs with
        | [] => pure { status := 404,
                       body := .errObj "No JSON files found in container.".data,
                       noStore := false }
        | b :: rest => download (pyMaxLM b rest).name >>= fun data =>
            pure { status := 200, body := HBody.bytes data, noStore := true } :
        Except Chars HttpResponse) with
      | .ok r => r
      | .error e => { status := 500, body := .errObj e, noStore := false }) = _
    simp only [bind, Except.bind, pure, Except.pure, hd]

/-- C2: for every call, zero listed snapshots yield the 404 response with a
JSON error object; an exception raised by the storage layer during the
listing or the download yields the 500 response with a JSON error object
and is never mapped to 404. -/
theorem endpoint_error_statuses (env : Except Chars Unit)
    (listing : Except Chars (List Blob)) (download : Chars → Except Chars Chars) :
    (env = .ok () → listing = .ok [] →
       scrape env listing download
         = { status := 404,
             body := .errObj "No JSON files found in container.".data,
             noStore := false })
    ∧ (∀ e, env = .ok () → listing = .error e →
       scrape env listing download
           = { status := 500, body := .errObj e, noStore := false }
         ∧ (scrape env listing download).status ≠ 404)
    ∧ (∀ e b rest, env = .ok () → listing = .ok (b :: rest) →
       download (pyMaxLM b rest).name = .error e →
       scrape env listing download
           = { status := 500, body := .errObj e, noStore := false }
         ∧ (scrape env listing download).status ≠ 404) := by
  refine ⟨?_, ?_, ?_⟩
  · rintro rfl rfl
    rfl
  · rintro e rfl rfl
    refine ⟨rfl, ?_⟩
    intro hc
    have h : scrape (Except.ok ()) (Except.error e) download
        = { status := 500, body := .errObj e, noStore := false } := rfl
    rw [h] at hc
    simp at hc
  · rintro e b rest rfl rfl hd
    have h := scrape_ok_cons download b rest
    rw [hd] at h
    rw [h]
    refine ⟨rfl, ?_⟩
    intro hc
    simp at hc

/-- Closed instance of C2: the empty listing produces the 404 error
object. -/
theorem endpoint_error_statuses_witness :
    scrape (.ok ()) (.ok []) dlTwo
      = { status := 404,
          body := .errObj "No JSON files found in container.".data,
          noStore := false } :=
  (endpoint_error_statuses (.ok ()) (.ok []) dlTwo).1 rfl rfl

/-- C3: with at least one stored snapshot and a download agreeing with the
listing, the response is 200 and its body is exactly the raw bytes of the
blob with the latest `last_modified`; the selected blob is a listed one of
maximal timestamp, and for any two blobs with different timestamps the
later-timestamped one is selected whatever their names. -/
theorem endpoint_latest_snapshot (env : Except Chars Unit)
    (listing : Except Chars (List Blob)) (download : Chars → Except Chars Chars)
    (b : Blob) (rest : List Blob) :
    (env = .ok () → listing = .ok (b :: rest) →
       (∀ x ∈ b :: rest, download x.name = .ok x.content) →
       scrape env listing download
         = { status := 200, body := .bytes (pyMaxLM b rest).content, noStore := true })
    ∧ pyMaxLM b rest ∈ b :: rest
    ∧ (∀ x ∈ b :: rest, x.lastModified ≤ (pyMaxLM b rest).lastModified)
    ∧ (∀ b₁ b₂ : Blob, b₁.lastModified < b₂.lastModified → pyMaxLM b₁ [b₂] = b₂)
    ∧ (∀ b₁ b₂ : Blob, b₂.lastModified < b₁.lastModified → pyMaxLM b₁ [b₂] = b₁) := by
  have hspec : ∀ (rest : List Blob) (cur : Blob),
      (pyMaxLM cur rest = cur ∨ pyMaxLM cur rest ∈ rest)
      ∧ cur.lastModified ≤ (pyMaxLM cur rest).lastModified
      ∧ ∀ x ∈ rest, x.lastModified ≤ (pyMaxLM cur rest).lastModified := by
    intro rest
    induction rest with
    | nil => exact fun cur => ⟨Or.inl rfl, le_refl _, by simp⟩
    | cons a t ih =>
      intro cur
      rw [pyMaxLM]
      by_cases h : cur.lastModified < a.lastModified
      · rw [if_pos h]
        refine ⟨?_, ?_, ?_⟩
        · rcases (ih a).1 with h1 | h1
          · exact Or.inr (by rw [h1]; exact List.mem_cons_self _ _)
          · exact Or.inr (List.mem_cons_of_mem _ h1)
        · exact le_trans (le_of_lt h) (ih a).2.1
        · intro x hx
          rcases List.mem_cons.mp hx with rfl | hx
          · exact (ih _).2.1
          · exact (ih _).2.2 x hx
      · rw [if_neg h]
        refine ⟨?_, (ih cur).2.1, ?_⟩
        · rcases (ih cur).1 with h1 | h1
          · exact Or.inl h1
          · exact Or.inr (List.mem_cons_of_mem _ h1)
        · intro x hx
          rcases List.mem_cons.mp hx with rfl | hx
          · exact le_trans (le_of_not_lt h) (ih cur).2.1
          · exact (ih cur).2.2 x hx
  refine ⟨?_, ?_, ?_, ?_, ?_⟩
  · rintro rfl rfl hdl
    have hmem : pyMaxLM b rest ∈ b :: rest := by
      rcases (hspec rest b).1 with h1 | h1
      · rw [h1]; exact List.mem_cons_self _ _
      · exact List.mem_cons_of_mem _ h1
    have h := scrape_ok_cons download b rest
    rw [hdl _ hmem] at h
    exact h
  · rcases (hspec rest b).1 with h1 | h1
    · rw [h1]; exact List.mem_cons_self _ _
    · exact List.mem_cons_of_mem _ h1
  · intro x hx
    rcases List.mem_cons.mp hx with rfl | hx
    · exact (hspec rest x).2.1
    · exact (hspec rest b).2.2 x hx
  · intro b₁ b₂ h
    rw [pyMaxLM, if_pos h, pyMaxLM]
  · intro b₁ b₂ h
    rw [pyMaxLM, if_neg (by omega), pyMaxLM]

/-- Closed instance of C3: of two stored snapshots the endpoint returns the
bytes of the later-written one, although its name embeds the earlier
date string. -/
theorem endpoint_latest_snapshot_witness :
    scrape (.ok ()) (.ok [blobOld, blobNew]) dlTwo
      = { status := 200, body := .bytes (pyMaxLM blobOld [blobNew]).content,
          noStore := true } :=
  (endpoint_latest_snapshot (.ok ()) (.ok [blobOld, blobNew]) dlTwo blobOld
    [blobNew]).1 rfl rfl (by
      intro x hx
      rcases List.mem_cons.mp hx with rfl | hx
      · rfl
      · rcases List.mem_cons.mp hx with rfl | hx
        · rfl
        · cases hx)

end ResmiGazete
